import Mathlib

/-!
Verification of the jackal C2S stream engine (`src/c2s/c2s.go`) against its
natural-language specification.

The Go code is shallowly embedded: each Go function relevant to a claim is
translated into an executable Lean definition over explicit state records.
External collaborators that are not part of the repository snapshot (the
`xml` stanza model, the `router` registry, the Go standard library) are
modelled as parameters or from the specification's description of their
interface; such definitions carry a doc comment starting with
`Modelled from the spec:`.
-/

namespace Jackal

/-- Modelled from the spec: the JID value type of the `xml` package (not under
src/): `(node, domain, resource)` with `bare()`, `full_with_user()` (node and
resource both present) and `is_server()` (node empty and resource empty). -/
structure JID where
  node : String
  domain : String
  resource : String
deriving DecidableEq, Repr

/-- Modelled from the spec: `bare()` drops the resource part. -/
def JID.toBareJID (j : JID) : JID := { j with resource := "" }

/-- Modelled from the spec: `is_server()` holds when node and resource are both empty. -/
def JID.isServer (j : JID) : Bool := j.node == "" && j.resource == ""

/-- Modelled from the spec: a bare JID is a JID with no resource. -/
def JID.isBare (j : JID) : Bool := j.resource == ""

/-- Modelled from the spec: `full_with_user()` holds when node and resource are both present. -/
def JID.isFullWithUser (j : JID) : Bool := j.node != "" && j.resource != ""

/-- Modelled from the spec: the message type taxonomy of the `xml` package:
normal, chat, groupchat, headline, error. -/
inductive MessageType where
  | normal
  | chat
  | groupchat
  | headline
  | error
deriving DecidableEq, Repr

/-- Modelled from the spec: a message stanza as consumed by `processMessage`:
its destination JID, its type, and whether it carries a body. -/
structure Message where
  toJID : JID
  typ : MessageType
  hasBody : Bool
deriving DecidableEq, Repr

/-- Modelled from the spec: `is_chat()` predicate of the message stanza. -/
def Message.isChat (m : Message) : Bool := m.typ == .chat

/-- Modelled from the spec: `is_groupchat()` predicate of the message stanza. -/
def Message.isGroupChat (m : Message) : Bool := m.typ == .groupchat

/-- Modelled from the spec: `has_body()` predicate (`IsMessageWithBody` in the source). -/
def Message.isMessageWithBody (m : Message) : Bool := m.hasBody

/-- Modelled from the spec: the generic XML element tree of the `xml` package
(not under src/): name, optional namespace, attribute map (insertion order
preserved), text, ordered child elements. -/
inductive Element where
  | mk (name : String) (ns : String) (text : String)
      (attrs : List (String × String)) (children : List Element)

/-- Element name accessor (`Name()` in the source). -/
def Element.name : Element → String
  | .mk n _ _ _ _ => n

/-- Element namespace accessor (`Namespace()` in the source). -/
def Element.ns : Element → String
  | .mk _ ns _ _ _ => ns

/-- Element text accessor (`Text()` in the source). -/
def Element.text : Element → String
  | .mk _ _ t _ _ => t

/-- Element attribute list accessor. -/
def Element.attrs : Element → List (String × String)
  | .mk _ _ _ a _ => a

/-- Element children accessor (`Elements().All()` in the source). -/
def Element.children : Element → List Element
  | .mk _ _ _ _ c => c

/-- Modelled from the spec: attribute lookup (`Attributes().Get` in the
source), returning the empty string when the attribute is absent. -/
def Element.attr (e : Element) (k : String) : String :=
  match e.attrs.find? (fun p => p.1 == k) with
  | some p => p.2
  | none => ""

/-- The `to` attribute accessor (`To()` in the source). -/
def Element.to (e : Element) : String := e.attr "to"

/-- The `version` attribute accessor (`Version()` in the source). -/
def Element.version (e : Element) : String := e.attr "version"

/-- Modelled from the spec: `Elements().Child(name)`: first child with the
given name. -/
def Element.child (e : Element) (n : String) : Option Element :=
  e.children.find? (fun c => c.name == n)

/-- Modelled from the spec: `Elements().ChildNamespace(name, ns)`: first child
with the given name and namespace. -/
def Element.childNamespace (e : Element) (n nsv : String) : Option Element :=
  e.children.find? (fun c => c.name == n && c.ns == nsv)

/-- Modelled from the spec: a presence stanza as consumed by
`processPresence`: destination JID and (signed) priority. -/
structure Presence where
  toJID : JID
  priority : Int
deriving DecidableEq, Repr

/-- The per-stream context of c2s.go: the typed values stored under the
context keys `username`, `domain`, `resource`, `jid`, `secured`,
`authenticated`, `compressed`, `presence` and the one-shot latch keys
`rosterOnce`, `offlineOnce`. -/
structure StreamCtx where
  username : String
  domain : String
  resource : String
  jid : JID
  secured : Bool
  authenticated : Bool
  compressed : Bool
  presence : Option Presence
  rosterOnce : Bool
  offlineOnce : Bool
deriving DecidableEq, Repr

/-- The `resource_conflict` configuration policy of the c2s config:
`Disallow` (the `default:` branch of `bindResource`), `Override`, `Replace`. -/
inductive ResourceConflict where
  | disallow
  | override
  | replace
deriving DecidableEq, Repr

/-- Modelled from the spec: an IQ stanza restricted to what `bindResource` and
`handleConnected` read from it: its id, its type attribute, and its child
payload elements (`Elements().ChildNamespace` in the source). -/
structure IQ where
  id : String
  typ : String
  children : List Element

/-- First child payload of an IQ with the given name and namespace
(`iq.Elements().ChildNamespace(name, ns)` in the source). -/
def IQ.childNamespace (iq : IQ) (n nsv : String) : Option Element :=
  iq.children.find? (fun c => c.name == n && c.ns == nsv)

/-- The `urn:ietf:params:xml:ns:xmpp-bind` namespace constant of c2s.go. -/
def bindNamespace : String := "urn:ietf:params:xml:ns:xmpp-bind"

/-- Modelled from the spec: one lowercase hex digit, as produced by the Go
standard library `encoding/hex`. -/
def hexDigit (n : Nat) : Char :=
  if n < 10 then Char.ofNat (48 + n) else Char.ofNat (87 + n)

/-- Modelled from the spec: two lowercase hex digits encoding one byte. -/
def hexEncodeByte (b : Nat) : String :=
  String.mk [hexDigit (b / 16 % 16), hexDigit (b % 16)]

/-- Modelled from the spec: `hex.EncodeToString` of the Go standard library,
over a byte sequence represented as a list of naturals below 256. -/
def hexEncode (bs : List Nat) : String :=
  String.join (bs.map hexEncodeByte)

/-- Result of `router.Instance().Route`: `nil` is `ok`, the other constructors
are the error values `ErrNotAuthenticated`, `ErrResourceNotFound`,
`ErrNotExistingAccount`, `ErrBlockedJID` of the router package. -/
inductive RouteResult where
  | ok
  | notAuthenticated
  | resourceNotFound
  | notExistingAccount
  | blockedJID
deriving DecidableEq, Repr

/-- Modelled from the spec: the router registry interface consumed by the
stream (`router` package, not under src/). `routeMessage` is
`router.Instance().Route` restricted to message stanzas; it is a function of
the message only, which the source passes unchanged. -/
structure RouterEnv where
  isLocalDomain : String → Bool
  routeMessage : Message → RouteResult

/-- Exit paths of `processMessage` (c2s.go lines 801-829), one constructor per
`return`/fall-off point of the Go function. `loopFuelExhausted` marks that the
`goto sendMessage` loop did not terminate within the given fuel. -/
inductive MsgOutcome where
  | delivered
  | archived
  | droppedChatWithBody
  | droppedOfflineDisabled
  | droppedNonLocalDomain
  | serviceUnavailableWritten
  | loopFuelExhausted
deriving DecidableEq, Repr

/-- The `sendMessage:` labelled block of `processMessage` (c2s.go lines
808-828).  The Go code calls `router.Instance().Route(message)` with the
message unchanged on every iteration; the local variable `toJID` is the one
coerced to its bare form before `goto sendMessage`, and is threaded here
exactly as in the source.  The second component counts the invocations of the
router's route operation.  A fuel argument totalizes the `goto` loop. -/
def messageSendLoop (env : RouterEnv) (offlineEnabled : Bool) (m : Message) :
    JID → Nat → MsgOutcome × Nat
  | _, 0 => (.loopFuelExhausted, 0)
  | toJID, fuel + 1 =>
    match env.routeMessage m with
    | .ok => (.delivered, 1)
    | .notAuthenticated =>
      if offlineEnabled then
        if (m.isChat || m.isGroupChat) && m.isMessageWithBody then
          (.droppedChatWithBody, 1)
        else
          (.archived, 1)
      else (.droppedOfflineDisabled, 1)
    | .resourceNotFound =>
      let r := messageSendLoop env offlineEnabled m toJID.toBareJID fuel
      (r.1, r.2 + 1)
    | .notExistingAccount => (.serviceUnavailableWritten, 1)
    | .blockedJID => (.serviceUnavailableWritten, 1)

/-- Embedding of `processMessage` (c2s.go lines 801-829): drop when the
destination domain is not local, otherwise enter the `sendMessage:` block.
`offlineEnabled` is `s.offline != nil`. -/
def processMessage (env : RouterEnv) (offlineEnabled : Bool) (m : Message)
    (fuel : Nat) : MsgOutcome × Nat :=
  if env.isLocalDomain m.toJID.domain then
    messageSendLoop env offlineEnabled m m.toJID fuel
  else (.droppedNonLocalDomain, 0)

/-- Environment of `bindResource` (c2s.go lines 621-683):
`streamsResources` is the list of resources of the streams returned by
`router.Instance().StreamsMatchingJID(s.JID().ToBareJID())`; `freshResource`
is the `uuid.New()` value used when the bind request carries no resource;
`sha256` is the Go standard library SHA-256 digest (modelled abstractly as a
byte-list-valued function of the hashed string); `jidOk` tells whether
`xml.NewJID(node, domain, resource, false)` succeeds (stringprep). -/
structure BindEnv where
  streamsResources : List String
  freshResource : String
  sha256 : String → List Nat
  jidOk : String → String → String → Bool

/-- The element written back by `bindResource`, one constructor per write
site: `iq.NotAllowedError()`, `iq.ConflictError()`, `iq.BadRequestError()`, or
the `<bind><jid>` result whose text is the full JID. -/
inductive BindOutput where
  | notAllowedErr
  | conflictErr
  | badRequestErr
  | resultJID (jidText : String)
deriving DecidableEq, Repr

/-- Result of `bindResource`: the written element, the stream context after
the call, whether `router.Instance().AuthenticateStream` was invoked, and
whether a conflicting stream was disconnected (the `Replace` branch). -/
structure BindResult where
  output : BindOutput
  ctx : StreamCtx
  registered : Bool
  disconnectedConflicting : Bool
deriving DecidableEq, Repr

/-- Tail of `bindResource` from the `xml.NewJID` call on (c2s.go lines
658-683): on stringprep failure write bad-request; otherwise set `resource`
and `jid` in the context, write the result echoing
`Username() + "@" + Domain() + "/" + Resource()`, and register the stream with
the router (`AuthenticateStream`). -/
def bindFinish (env : BindEnv) (ctx : StreamCtx) (resource : String)
    (disconnected : Bool) : BindResult :=
  if env.jidOk ctx.username ctx.domain resource then
    let ctx2 := { ctx with resource := resource,
                           jid := ⟨ctx.username, ctx.domain, resource⟩ }
    { output := .resultJID (ctx2.username ++ "@" ++ ctx2.domain ++ "/" ++ ctx2.resource),
      ctx := ctx2, registered := true, disconnectedConflicting := disconnected }
  else
    { output := .badRequestErr, ctx := ctx, registered := false,
      disconnectedConflicting := disconnected }

/-- Embedding of `bindResource` (c2s.go lines 621-683).  The requested
resource is the text of the `<resource>` child when present, else a fresh
uuid; a collision exists when some stream bound to the same bare JID already
carries that resource; on collision the `resource_conflict` policy decides:
`Override` re-mints the resource as the lowercase hex encoding of the SHA-256
digest of the stream id, `Replace` disconnects the conflicting stream and
proceeds with the requested resource, and the `default` (`Disallow`) branch
writes a conflict error and returns with nothing changed. -/
def bindResource (env : BindEnv) (policy : ResourceConflict) (ctx : StreamCtx)
    (streamId : String) (iq : IQ) : BindResult :=
  match iq.childNamespace "bind" bindNamespace with
  | none =>
    { output := .notAllowedErr, ctx := ctx, registered := false,
      disconnectedConflicting := false }
  | some bindEl =>
    let resource :=
      match bindEl.child "resource" with
      | some r => r.text
      | none => env.freshResource
    if env.streamsResources.any (fun r => r == resource) then
      match policy with
      | .override => bindFinish env ctx (hexEncode (env.sha256 streamId)) false
      | .replace => bindFinish env ctx resource true
      | .disallow =>
        { output := .conflictErr, ctx := ctx, registered := false,
          disconnectedConflicting := false }
    else bindFinish env ctx resource false

/-- Concrete `<resource>home</resource>` child used by the bind witnesses. -/
def c3resEl : Element := .mk "resource" "" "home" [] []

/-- Concrete `<bind>` payload used by the bind witnesses. -/
def c3bindEl : Element := .mk "bind" bindNamespace "" [] [c3resEl]

/-- Concrete bind IQ used by the bind witnesses. -/
def c3iq : IQ := ⟨"b1", "set", [c3bindEl]⟩

/-- Concrete bind environment with a stream already bound to resource
`home`. -/
def c3env : BindEnv := ⟨["home"], "fresh", fun _ => [], fun _ _ _ => true⟩

/-- Concrete authenticated stream context used by the bind witnesses. -/
def c3ctx : StreamCtx :=
  ⟨"alice", "localhost", "", ⟨"alice", "localhost", ""⟩, true, true, false,
    none, false, false⟩

/-- Concrete bind environment for the override witness: a two-byte digest. -/
def c4env : BindEnv := ⟨["home"], "fresh", fun _ => [222, 173], fun _ _ _ => true⟩

/-- The transport kind tag (`transport.Socket` and `transport.WebSocket` in
the source). -/
inductive TransportType where
  | socket
  | websocket
deriving DecidableEq, Repr

/-- The `jabber:client` namespace constant of c2s.go. -/
def jabberClientNamespace : String := "jabber:client"

/-- The `urn:ietf:params:xml:ns:xmpp-framing` namespace constant of c2s.go. -/
def framedStreamNamespace : String := "urn:ietf:params:xml:ns:xmpp-framing"

/-- The `http://etherx.jabber.org/streams` namespace constant of c2s.go. -/
def streamNamespace : String := "http://etherx.jabber.org/streams"

/-- The `urn:ietf:params:xml:ns:xmpp-tls` namespace constant of c2s.go. -/
def tlsNamespace : String := "urn:ietf:params:xml:ns:xmpp-tls"

/-- The `urn:ietf:params:xml:ns:xmpp-sasl` namespace constant of c2s.go. -/
def saslNamespace : String := "urn:ietf:params:xml:ns:xmpp-sasl"

/-- The `urn:ietf:params:xml:ns:xmpp-session` namespace constant of c2s.go. -/
def sessionNamespace : String := "urn:ietf:params:xml:ns:xmpp-session"

/-- The `urn:xmpp:blocking:errors` namespace constant of c2s.go. -/
def blockedErrorNamespace : String := "urn:xmpp:blocking:errors"

/-- The stream error taxonomy of the `streamerror` package as used by
c2s.go. -/
inductive StreamError where
  | invalidXML
  | invalidNamespace
  | hostUnknown
  | unsupportedVersion
  | unsupportedStanzaType
  | notAuthorized
  | invalidFrom
  | policyViolation
  | connectionTimeout
  | resourceConstraint
  | internalServerError
deriving DecidableEq, Repr

/-- The stream state constants of c2s.go (lines 45-52). -/
inductive StreamState where
  | connecting
  | connected
  | authenticating
  | authenticated
  | sessionStarted
  | disconnected
deriving DecidableEq, Repr

/-- The configuration slice read by the feature advertisement code:
`mechanisms` are the configured SASL mechanism names in configuration order
(`s.authrs`), `registrationEnabled` is `cfg.Modules.Enabled["registration"]`,
`compressionConfigured` is `cfg.Compression.Level != NoCompression`, and
`rosterVersioning` is `cfg.Modules.Roster.Versioning`. -/
structure FeaturesCfg where
  mechanisms : List String
  registrationEnabled : Bool
  compressionConfigured : Bool
  rosterVersioning : Bool

/-- One `<mechanism>` child element carrying a mechanism name as text. -/
def mkMechanismEl (m : String) : Element := .mk "mechanism" "" m [] []

/-- Embedding of `unauthenticatedFeatures` (c2s.go lines 350-384): starttls
with a required child when on a socket transport that is not yet secured; the
SASL mechanisms list (in configuration order) when not on a socket transport
or already secured, and at least one mechanism is configured; the in-band
registration feature when the registration module is enabled and the stream is
secured. -/
def unauthenticatedFeatures (trType : TransportType) (secured : Bool)
    (cfg : FeaturesCfg) : List Element :=
  let isSocketTransport := trType == .socket
  let startTLSFeats :=
    if isSocketTransport && !secured then
      [Element.mk "starttls" tlsNamespace "" [] [Element.mk "required" "" "" [] []]]
    else []
  let shouldOfferSASL := !isSocketTransport || (isSocketTransport && secured)
  let saslFeats :=
    if shouldOfferSASL && !cfg.mechanisms.isEmpty then
      [Element.mk "mechanisms" saslNamespace "" [] (cfg.mechanisms.map mkMechanismEl)]
    else []
  let regFeats :=
    if cfg.registrationEnabled && secured then
      [Element.mk "register" "http://jabber.org/features/iq-register" "" [] []]
    else []
  startTLSFeats ++ saslFeats ++ regFeats

/-- Embedding of `authenticatedFeatures` (c2s.go lines 386-413): the zlib
compression feature when on a socket transport with compression configured and
not yet compressed; always bind (required) and session; the roster versioning
feature when the roster module is initialized and versioning is enabled. -/
def authenticatedFeatures (trType : TransportType) (compressed : Bool)
    (rosterInitialized : Bool) (cfg : FeaturesCfg) : List Element :=
  let isSocketTransport := trType == .socket
  let compressionAvailable := isSocketTransport && cfg.compressionConfigured
  let compressionFeats :=
    if !compressed && compressionAvailable then
      [Element.mk "compression" "http://jabber.org/features/compress" "" []
        [Element.mk "method" "" "zlib" [] []]]
    else []
  let bindFeats :=
    [Element.mk "bind" bindNamespace "" [] [Element.mk "required" "" "" [] []],
     Element.mk "session" sessionNamespace "" [] []]
  let verFeats :=
    if rosterInitialized && cfg.rosterVersioning then
      [Element.mk "ver" "urn:xmpp:features:rosterver" "" [] []]
    else []
  compressionFeats ++ bindFeats ++ verFeats

/-- The transport kind and the router's local-domain table as consumed by
`validateStreamElement`. -/
structure StreamEnv where
  trType : TransportType
  isLocalDomain : String → Bool

/-- The transport-dependent head of `validateStreamElement` (c2s.go lines
993-1010): element name and namespace checks. -/
def validateStreamHead (trType : TransportType) (e : Element) : Option StreamError :=
  match trType with
  | .socket =>
    if e.name != "stream:stream" then some .unsupportedStanzaType
    else if e.ns != jabberClientNamespace
        || e.attr "xmlns:stream" != streamNamespace then some .invalidNamespace
    else none
  | .websocket =>
    if e.name != "open" then some .unsupportedStanzaType
    else if e.ns != framedStreamNamespace then some .invalidNamespace
    else none

/-- Embedding of `validateStreamElement` (c2s.go lines 993-1019): after the
transport-dependent name and namespace checks, a non-empty `to` attribute that
is not a local domain yields host-unknown, then a version other than `1.0`
yields unsupported-version. -/
def validateStreamElement (env : StreamEnv) (e : Element) : Option StreamError :=
  match validateStreamHead env.trType e with
  | some err => some err
  | none =>
    if e.to != "" && !(env.isLocalDomain e.to) then some .hostUnknown
    else if e.version != "1.0" then some .unsupportedVersion
    else none

/-- Result of `handleConnecting`: the stream state after the call, the stream
error written (if validation failed, the disconnect path is taken), the
features element children written on success, and the stream context after the
call. -/
structure ConnectingResult where
  state : StreamState
  streamErr : Option StreamError
  sentFeatures : Option (List Element)
  ctx : StreamCtx

/-- Embedding of `handleConnecting` (c2s.go lines 318-348): validate the
stream open element; on failure `disconnectWithStreamError` writes the stream
error and moves to disconnected; on success assign the stream domain from the
`to` attribute, reply with the stream open and a features element, and move to
connected (not yet authenticated) or authenticated. -/
def handleConnecting (env : StreamEnv) (cfg : FeaturesCfg)
    (rosterInitialized : Bool) (ctx : StreamCtx) (e : Element) : ConnectingResult :=
  match validateStreamElement env e with
  | some err =>
    { state := .disconnected, streamErr := some err, sentFeatures := none, ctx := ctx }
  | none =>
    let ctx2 := { ctx with domain := e.to }
    if ctx2.authenticated then
      { state := .authenticated, streamErr := none,
        sentFeatures := some (authenticatedFeatures env.trType ctx2.compressed
          rosterInitialized cfg),
        ctx := ctx2 }
    else
      { state := .connected, streamErr := none,
        sentFeatures := some (unauthenticatedFeatures env.trType ctx2.secured cfg),
        ctx := ctx2 }

/-- Embedding of `validateNamespace` (c2s.go lines 1021-1027): an absent
namespace or `jabber:client` is accepted, everything else is the
invalid-namespace stream error. -/
def validateNamespace (e : Element) : Option StreamError :=
  if e.ns == "" || e.ns == jabberClientNamespace then none else some .invalidNamespace

/-- Modelled from the spec: `xml.NewIQFromElement` (xml package, not under
src/): the IQ type must be one of get, set, result, error, and a get or set
IQ must have exactly one child payload. -/
def newIQFromElement (e : Element) : Option IQ :=
  let t := e.attr "type"
  if t == "get" || t == "set" then
    if e.children.length == 1 then some ⟨e.attr "id", t, e.children⟩ else none
  else if t == "result" || t == "error" then some ⟨e.attr "id", t, e.children⟩
  else none

/-- Failure plane of `buildStanza`: a fatal stream error
(`handleElementError` disconnects) or a recoverable stanza error
(`handleElementError` writes an errored copy of the element). -/
inductive BuildErr where
  | streamE (err : StreamError)
  | stanzaE
deriving DecidableEq, Repr

/-- Embedding of `buildStanza` (c2s.go lines 947-981) restricted to iq
elements, with `validateFrom = false` as in the connected state: validate the
namespace, derive the `to` JID (parsing failure is the jid-malformed stanza
error; an absent `to` defaults to the stream's own bare JID), then build the
IQ (failure is the bad-request stanza error).  `parseJID` models
`xml.NewJIDString`. -/
def buildStanzaIQ (parseJID : String → Option JID) (selfJID : JID)
    (e : Element) : Except BuildErr IQ :=
  match validateNamespace e with
  | some err => .error (.streamE err)
  | none =>
    let toRes : Except BuildErr JID :=
      if e.to != "" then
        match parseJID e.to with
        | some j => .ok j
        | none => .error .stanzaE
      else .ok selfJID.toBareJID
    match toRes with
    | .error b => .error b
    | .ok _ =>
      match newIQFromElement e with
      | some iq => .ok iq
      | none => .error .stanzaE

/-- The observable outcome of `handleConnected`, one constructor per exit
path of the Go function. -/
inductive ConnectedOutcome where
  | proceedTLSWritten
  | streamErrClosed (err : StreamError)
  | saslStarted
  | registerProcessed
  | wroteServiceUnavailable
  | stanzaErrWritten
deriving DecidableEq, Repr

/-- Result of `handleConnected`: outcome, next stream state, context after. -/
structure ConnectedResult where
  outcome : ConnectedOutcome
  state : StreamState
  ctx : StreamCtx
deriving DecidableEq, Repr

/-- Environment of `handleConnected`: `registerModule` is `s.register` (the
in-band registration module when enabled, exposing `MatchesIQ`), `parseJID`
models `xml.NewJIDString` for address extraction, and `saslHandler` models
`startAuthentication` (the SASL engine of the auth package, outside this
state handler). -/
structure ConnectedEnv where
  registerModule : Option (IQ → Bool)
  parseJID : String → Option JID
  saslHandler : StreamCtx → Element → ConnectedResult

/-- Embedding of `proceedStartTLS` (c2s.go lines 516-530): on an already
secured stream, disconnect with the not-authorized stream error; otherwise set
the secured flag, write `<proceed>`, upgrade the transport and restart the
stream (back to connecting). -/
def proceedStartTLS (ctx : StreamCtx) : ConnectedResult :=
  if ctx.secured then
    { outcome := .streamErrClosed .notAuthorized, state := .disconnected, ctx := ctx }
  else
    { outcome := .proceedTLSWritten, state := .connecting,
      ctx := { ctx with secured := true } }

/-- Embedding of `handleConnected` (c2s.go lines 415-456).  A starttls element
with a non-empty namespace other than the TLS namespace is an
invalid-namespace disconnect, otherwise `proceedStartTLS` runs; an auth
element outside the SASL namespace is an invalid-namespace disconnect,
otherwise the SASL exchange starts (its internals are outside this state
handler); an iq is built, dispatched to the registration module when it
matches, answered with a service-unavailable stanza error when it carries a
legacy `jabber:iq:auth` query, and otherwise falls through to the
message/presence case, a not-authorized disconnect; any other element is an
unsupported-stanza-type disconnect. -/
def handleConnected (env : ConnectedEnv) (ctx : StreamCtx) (e : Element) :
    ConnectedResult :=
  if e.name == "starttls" then
    if e.ns != "" && e.ns != tlsNamespace then
      { outcome := .streamErrClosed .invalidNamespace, state := .disconnected, ctx := ctx }
    else proceedStartTLS ctx
  else if e.name == "auth" then
    if e.ns != saslNamespace then
      { outcome := .streamErrClosed .invalidNamespace, state := .disconnected, ctx := ctx }
    else env.saslHandler ctx e
  else if e.name == "iq" then
    match buildStanzaIQ env.parseJID ctx.jid e with
    | .error (.streamE err) =>
      { outcome := .streamErrClosed err, state := .disconnected, ctx := ctx }
    | .error .stanzaE =>
      { outcome := .stanzaErrWritten, state := .connected, ctx := ctx }
    | .ok iq =>
      if (match env.registerModule with
          | some matchesIQ => matchesIQ iq
          | none => false) then
        { outcome := .registerProcessed, state := .connected, ctx := ctx }
      else if (iq.childNamespace "query" "jabber:iq:auth").isSome then
        { outcome := .wroteServiceUnavailable, state := .connected, ctx := ctx }
      else
        { outcome := .streamErrClosed .notAuthorized, state := .disconnected, ctx := ctx }
  else if e.name == "message" || e.name == "presence" then
    { outcome := .streamErrClosed .notAuthorized, state := .disconnected, ctx := ctx }
  else
    { outcome := .streamErrClosed .unsupportedStanzaType, state := .disconnected, ctx := ctx }

/-- Embedding of the context initialization in `New` (c2s.go lines 105-141):
the secured flag starts as the negation of having a socket transport, the
domain is the router's default local domain, the JID is the bare domain JID,
and every other context value is unset (empty or false). -/
def newStreamCtx (trType : TransportType) (defaultLocalDomain : String) : StreamCtx :=
  { username := "", domain := defaultLocalDomain, resource := "",
    jid := ⟨"", defaultLocalDomain, ""⟩, secured := !(trType == .socket),
    authenticated := false, compressed := false, presence := none,
    rosterOnce := false, offlineOnce := false }

/-- Environment of `processPresence`: the router's local-domain table,
whether the roster module is initialized (`s.roster != nil`), and whether the
offline module is enabled (`s.offline != nil`). -/
structure PresenceEnv where
  isLocalDomain : String → Bool
  rosterEnabled : Bool
  offlineEnabled : Bool

/-- The module actions triggered by one `processPresence` call:
`rosterDelivery` is `DeliverPendingApprovalNotifications` plus
`ReceivePresences`, `offlineDelivery` is `DeliverOfflineMessages`,
`broadcast` is `BroadcastPresence`, `routed` is a router `Route` call, and
`rosterSubscription` is `roster.ProcessPresence`. -/
structure PresenceActions where
  rosterDelivery : Bool
  offlineDelivery : Bool
  broadcast : Bool
  routed : Bool
  rosterSubscription : Bool
  dropped : Bool
deriving DecidableEq, Repr

/-- The roster block of `processPresence` (c2s.go lines 782-790): when the
roster module exists, deliver pending approval notifications and receive
presences once per stream (guarded by the `rosterOnce` latch, set and never
cleared), and always broadcast.  Returns the context and the
(rosterDelivery, broadcast) pair. -/
def rosterStage (rosterEnabled : Bool) (ctx : StreamCtx) : StreamCtx × Bool × Bool :=
  if rosterEnabled then
    if ctx.rosterOnce then (ctx, false, true)
    else ({ ctx with rosterOnce := true }, true, true)
  else (ctx, false, false)

/-- The offline block of `processPresence` (c2s.go lines 792-798): when the
offline module exists and the just-stored presence has non-negative priority,
deliver offline messages once per stream (guarded by the `offlineOnce` latch,
set and never cleared). -/
def offlineStage (offlineEnabled : Bool) (prio : Int) (ctx : StreamCtx) :
    StreamCtx × Bool :=
  if offlineEnabled && decide (0 ≤ prio) then
    if ctx.offlineOnce then (ctx, false)
    else ({ ctx with offlineOnce := true }, true)
  else (ctx, false)

/-- The tail of `processPresence` for a presence addressed to the stream
itself (c2s.go lines 779-799): store the presence in the context, then run
the roster block and the offline block in order. -/
def presenceSelf (env : PresenceEnv) (ctx : StreamCtx) (p : Presence) :
    StreamCtx × PresenceActions :=
  let s1 := rosterStage env.rosterEnabled { ctx with presence := some p }
  let s2 := offlineStage env.offlineEnabled p.priority s1.1
  (s2.1, ⟨s1.2.1, s2.2, s1.2.2, false, false, false⟩)

/-- Embedding of `processPresence` (c2s.go lines 763-799): drop on a
non-local destination domain; hand a bare destination differing from the own
bare JID to the roster subscription logic; route a full destination JID;
otherwise store the presence in the context and run the roster and offline
blocks. -/
def processPresence (env : PresenceEnv) (ctx : StreamCtx) (p : Presence) :
    StreamCtx × PresenceActions :=
  if !(env.isLocalDomain p.toJID.domain) then
    (ctx, ⟨false, false, false, false, false, true⟩)
  else if p.toJID.isBare && (p.toJID.node != ctx.username || p.toJID.domain != ctx.domain) then
    (ctx, ⟨false, false, false, false, env.rosterEnabled, false⟩)
  else if p.toJID.isFullWithUser then
    (ctx, ⟨false, false, false, true, false, false⟩)
  else
    presenceSelf env ctx p

/-- Iterated `processPresence` over a sequence of presence stanzas handled in
session_started, counting how many calls triggered the roster delivery action
and how many triggered the offline delivery action. -/
def processPresences (env : PresenceEnv) (ctx : StreamCtx) :
    List Presence → StreamCtx × Nat × Nat
  | [] => (ctx, 0, 0)
  | p :: ps =>
    let step := processPresence env ctx p
    let rest := processPresences env step.1 ps
    (rest.1, rest.2.1 + (if step.2.rosterDelivery then 1 else 0),
      rest.2.2 + (if step.2.offlineDelivery then 1 else 0))

/-- Environment of `isBlockedJID`: the router's local-domain table and its
blocklist query `IsBlockedJID(jid, username)`. -/
structure BlockEnv where
  isLocalDomain : String → Bool
  isBlockedJIDRouter : JID → String → Bool

/-- Embedding of `isBlockedJID` (c2s.go lines 1120-1125): a server JID on a
local domain is never blocked; everything else is looked up in the router's
blocklist. -/
def isBlockedJID (env : BlockEnv) (username : String) (j : JID) : Bool :=
  if j.isServer && env.isLocalDomain j.domain then false
  else env.isBlockedJIDRouter j username

/-- A stanza as dispatched by `processStanza`: one of the three kinds, each
carrying what the blocked-JID guard reads (its destination JID). -/
inductive Stanza where
  | presence (p : Presence)
  | iq (toJID : JID)
  | message (m : Message)

/-- Destination JID of a stanza (`stanza.ToJID()` in the source). -/
def Stanza.toJID : Stanza → JID
  | .presence p => p.toJID
  | .iq j => j
  | .message m => m.toJID

/-- Outcome of the blocked-JID guard of `processStanza`: `blockedResponse` is
the errored copy of the stanza carrying not-acceptable with a child
`<blocked>` in the `urn:xmpp:blocking:errors` namespace; `dispatched` means
the guard passed and the stanza went on to the per-kind processing
(`processPresence`, `processIQ`, `processMessage`). -/
inductive StanzaOutcome where
  | blockedResponse
  | dispatched
deriving DecidableEq, Repr

/-- Embedding of the guard of `processStanza` (c2s.go lines 707-723): a
blocked destination JID is answered with the blocked error response and the
stanza is not dispatched; otherwise the stanza is dispatched by kind. -/
def processStanza (env : BlockEnv) (username : String) (st : Stanza) :
    StanzaOutcome :=
  if isBlockedJID env username st.toJID then .blockedResponse else .dispatched

/-- Concrete stream environment for the host-unknown witness: socket
transport, only `localhost` is local. -/
def c6env : StreamEnv := ⟨.socket, fun d => d == "localhost"⟩

/-- Concrete stream open element addressed to a non-local domain. -/
def c6elem : Element :=
  .mk "stream:stream" "jabber:client" ""
    [("xmlns:stream", "http://etherx.jabber.org/streams"), ("to", "evil.org"),
     ("version", "1.0")] []

/-- Concrete connecting-state context for the host-unknown witness. -/
def c6ctx : StreamCtx := newStreamCtx .socket "localhost"

/-- Concrete legacy `jabber:iq:auth` query payload. -/
def c7query : Element := .mk "query" "jabber:iq:auth" "" [] []

/-- Concrete iq element carrying the legacy auth query. -/
def c7elem : Element := .mk "iq" "" "" [("type", "get"), ("id", "a1")] [c7query]

/-- The IQ built from `c7elem`. -/
def c7iq : IQ := ⟨"a1", "get", [c7query]⟩

/-- Concrete connected-state environment with no registration module. -/
def c7env : ConnectedEnv :=
  ⟨none, fun _ => none, fun c _ => ⟨.saslStarted, .connected, c⟩⟩

/-- Concrete connected-state context for the legacy auth witness. -/
def c7ctx : StreamCtx := newStreamCtx .socket "localhost"

/-- Concrete blocking environment whose router blocklist blocks every pair. -/
def c9env : BlockEnv := ⟨fun _ => true, fun _ _ => true⟩

/-- Concrete stanza addressed to the server JID of a local domain. -/
def c9stanza : Stanza := .iq ⟨"", "localhost", ""⟩

/-- Concrete connected-state environment for the websocket starttls witness. -/
def c10env : ConnectedEnv :=
  ⟨none, fun _ => none, fun c _ => ⟨.saslStarted, .connected, c⟩⟩

/-- Concrete starttls element in the TLS namespace. -/
def c10elem : Element := .mk "starttls" tlsNamespace "" [] []

end Jackal

namespace Jackal

/-- C1 counterexample: the scenario S4 message (type chat, body present,
addressed to a local domain), with the offline module enabled and the router
answering `not_authenticated`, is NOT archived: `processMessage` returns on the
chat-with-body early exit without calling `ArchiveMessage`. -/
theorem c1_chat_with_body_not_archived :
    (processMessage ⟨fun _ => true, fun _ => .notAuthenticated⟩ true
        ⟨⟨"bob", "localhost", ""⟩, .chat, true⟩ 1).1
      = .droppedChatWithBody ∧
    (processMessage ⟨fun _ => true, fun _ => .notAuthenticated⟩ true
        ⟨⟨"bob", "localhost", ""⟩, .chat, true⟩ 1).1
      ≠ .archived := by
  constructor
  · rfl
  · decide

/-- C1 (amended): in session_started, when a message to a local domain is
routed, the router answers `not_authenticated` and the offline module is
enabled, the message is archived unless it is a chat or groupchat message
carrying a body, in which case it is silently dropped without archiving; in
either case no error stanza is written back to the sender. -/
theorem processMessage_offline_notAuthenticated (env : RouterEnv) (m : Message)
    (fuel : Nat) (hl : env.isLocalDomain m.toJID.domain = true)
    (hr : env.routeMessage m = .notAuthenticated) (hf : 0 < fuel) :
    (if (m.isChat || m.isGroupChat) && m.isMessageWithBody then
        processMessage env true m fuel = (.droppedChatWithBody, 1)
      else processMessage env true m fuel = (.archived, 1)) ∧
    (processMessage env true m fuel).1 ≠ .serviceUnavailableWritten := by
  obtain ⟨fuel, rfl⟩ : ∃ k, fuel = k + 1 := ⟨fuel - 1, (Nat.succ_pred_eq_of_pos hf).symm⟩
  unfold processMessage messageSendLoop
  rw [hl, hr]
  simp only [if_true]
  by_cases hb : ((m.isChat || m.isGroupChat) && m.isMessageWithBody) = true
  · rw [if_pos hb, if_pos hb]
    exact ⟨rfl, by decide⟩
  · rw [if_neg hb, if_neg hb]
    exact ⟨rfl, by decide⟩

/-- C1 witness: a normal-type message to an offline local user is archived and
no error is written. -/
theorem processMessage_offline_notAuthenticated_witness :
    (if ((⟨⟨"bob", "localhost", ""⟩, .normal, true⟩ : Message).isChat ||
          (⟨⟨"bob", "localhost", ""⟩, .normal, true⟩ : Message).isGroupChat) &&
          (⟨⟨"bob", "localhost", ""⟩, .normal, true⟩ : Message).isMessageWithBody then
        processMessage ⟨fun _ => true, fun _ => .notAuthenticated⟩ true
          ⟨⟨"bob", "localhost", ""⟩, .normal, true⟩ 1 = (.droppedChatWithBody, 1)
      else processMessage ⟨fun _ => true, fun _ => .notAuthenticated⟩ true
          ⟨⟨"bob", "localhost", ""⟩, .normal, true⟩ 1 = (.archived, 1)) ∧
    (processMessage ⟨fun _ => true, fun _ => .notAuthenticated⟩ true
        ⟨⟨"bob", "localhost", ""⟩, .normal, true⟩ 1).1 ≠ .serviceUnavailableWritten :=
  processMessage_offline_notAuthenticated _ _ 1 rfl rfl (by decide)

/-- C2: when the router deterministically answers `resource_not_found` for the
(unchanged) message, the `goto sendMessage` loop of `processMessage` never
terminates: for every fuel bound the loop exhausts it, and the router's route
operation is invoked exactly `fuel` times, i.e. unboundedly often rather than
at most twice.  The bare-JID coercion only updates the dead local `toJID`; the
message handed to `Route` never changes. -/
theorem processMessage_resourceNotFound_unbounded (env : RouterEnv)
    (offlineEnabled : Bool) (m : Message)
    (hl : env.isLocalDomain m.toJID.domain = true)
    (hr : env.routeMessage m = .resourceNotFound) :
    ∀ fuel, processMessage env offlineEnabled m fuel = (.loopFuelExhausted, fuel) := by
  have key : ∀ fuel j, messageSendLoop env offlineEnabled m j fuel =
      (.loopFuelExhausted, fuel) := by
    intro fuel
    induction fuel with
    | zero => intro j; rfl
    | succ n ih =>
      intro j
      unfold messageSendLoop
      rw [hr]
      simp only [ih]
  intro fuel
  unfold processMessage
  rw [hl]
  simp only [key, if_true]

/-- C2 witness: with a concrete always-`resource_not_found` router, routing a
message to `bob@localhost/phone` with fuel 3 makes three route invocations and
still exhausts the fuel — strictly more than the two invocations the claim
allows. -/
theorem processMessage_resourceNotFound_unbounded_witness :
    processMessage ⟨fun _ => true, fun _ => .resourceNotFound⟩ false
      ⟨⟨"bob", "localhost", "phone"⟩, .chat, true⟩ 3 = (.loopFuelExhausted, 3) :=
  processMessage_resourceNotFound_unbounded _ _ _ rfl rfl 3

/-- C3: under the default (Disallow) resource_conflict policy, a bind request
whose requested resource collides with another stream bound to the same bare
JID is answered with a conflict stanza error and changes nothing: the context
keeps its resource and JID and the stream is not registered with the router;
consequently the identical bind attempt repeated from the resulting context is
answered with conflict again. -/
theorem bindResource_disallow_conflict (env : BindEnv) (ctx : StreamCtx)
    (streamId : String) (iq : IQ) (bindEl rEl : Element)
    (hbind : iq.childNamespace "bind" bindNamespace = some bindEl)
    (hres : bindEl.child "resource" = some rEl)
    (hcol : rEl.text ∈ env.streamsResources) :
    bindResource env .disallow ctx streamId iq =
      { output := .conflictErr, ctx := ctx, registered := false,
        disconnectedConflicting := false } ∧
    bindResource env .disallow
        (bindResource env .disallow ctx streamId iq).ctx streamId iq =
      { output := .conflictErr, ctx := ctx, registered := false,
        disconnectedConflicting := false } := by
  have hany : env.streamsResources.any (fun r => r == rEl.text) = true :=
    List.any_eq_true.mpr ⟨rEl.text, hcol, by simp⟩
  have h1 : bindResource env .disallow ctx streamId iq =
      { output := .conflictErr, ctx := ctx, registered := false,
        disconnectedConflicting := false } := by
    unfold bindResource
    rw [hbind]
    simp only [hres, hany, if_true]
  refine ⟨h1, ?_⟩
  rw [h1]
  exact h1

/-- C3 witness: a concrete bind of resource `home` colliding with an existing
`home`-bound stream yields conflict twice and leaves the context unchanged. -/
theorem bindResource_disallow_conflict_witness :
    bindResource c3env .disallow c3ctx "sid" c3iq =
      { output := .conflictErr, ctx := c3ctx, registered := false,
        disconnectedConflicting := false } ∧
    bindResource c3env .disallow
        (bindResource c3env .disallow c3ctx "sid" c3iq).ctx "sid" c3iq =
      { output := .conflictErr, ctx := c3ctx, registered := false,
        disconnectedConflicting := false } :=
  bindResource_disallow_conflict c3env c3ctx "sid" c3iq c3bindEl c3resEl rfl rfl
    (by decide)

/-- C4: under the Override resource_conflict policy, a colliding bind request
is bound instead to the deterministic resource equal to the lowercase hex
encoding of the SHA-256 digest of the stream id: the context's resource and
JID are set to it, the bind result echoes the full JID
`node@domain/<hashed resource>`, and the stream is registered with the
router. -/
theorem bindResource_override_hashed (env : BindEnv) (ctx : StreamCtx)
    (streamId : String) (iq : IQ) (bindEl rEl : Element)
    (hbind : iq.childNamespace "bind" bindNamespace = some bindEl)
    (hres : bindEl.child "resource" = some rEl)
    (hcol : rEl.text ∈ env.streamsResources)
    (hok : env.jidOk ctx.username ctx.domain (hexEncode (env.sha256 streamId)) = true) :
    bindResource env .override ctx streamId iq =
      { output := .resultJID (ctx.username ++ "@" ++ ctx.domain ++ "/"
            ++ hexEncode (env.sha256 streamId)),
        ctx := { ctx with resource := hexEncode (env.sha256 streamId), jid := ⟨ctx.username, ctx.domain, hexEncode (env.sha256 streamId)⟩ },
        registered := true, disconnectedConflicting := false } := by
  have hany : env.streamsResources.any (fun r => r == rEl.text) = true :=
    List.any_eq_true.mpr ⟨rEl.text, hcol, by simp⟩
  unfold bindResource bindFinish
  rw [hbind]
  simp only [hres, hany, if_true, hok]

/-- C4 witness: with a concrete digest function, the colliding bind under
Override binds the hex digest string and echoes it in the full JID. -/
theorem bindResource_override_hashed_witness :
    bindResource c4env .override c3ctx "sid" c3iq =
      { output := .resultJID (c3ctx.username ++ "@" ++ c3ctx.domain ++ "/"
            ++ hexEncode (c4env.sha256 "sid")),
        ctx := { c3ctx with resource := hexEncode (c4env.sha256 "sid"), jid := ⟨c3ctx.username, c3ctx.domain, hexEncode (c4env.sha256 "sid")⟩ },
        registered := true, disconnectedConflicting := false } :=
  bindResource_override_hashed c4env c3ctx "sid" c3iq c3bindEl c3resEl rfl rfl
    (by decide) rfl

/-- C5: the features element written on entering connected from a fresh open
contains starttls with a required child exactly when the transport is a socket
and the stream is not yet secured; contains the SASL mechanisms list, with the
mechanism names in configuration order, exactly when the transport is not a
socket or the stream is already secured, and at least one mechanism is
configured; and contains the registration feature exactly when the
registration module is enabled and the stream is secured (so only when
secured). -/
theorem unauthenticatedFeatures_advertisement (trType : TransportType)
    (secured : Bool) (cfg : FeaturesCfg) :
    ((Element.mk "starttls" tlsNamespace "" [] [Element.mk "required" "" "" [] []])
        ∈ unauthenticatedFeatures trType secured cfg
      ↔ (trType = .socket ∧ secured = false)) ∧
    ((Element.mk "mechanisms" saslNamespace "" [] (cfg.mechanisms.map mkMechanismEl))
        ∈ unauthenticatedFeatures trType secured cfg
      ↔ ((trType = .websocket ∨ secured = true) ∧ cfg.mechanisms ≠ [])) ∧
    ((Element.mk "register" "http://jabber.org/features/iq-register" "" [] [])
        ∈ unauthenticatedFeatures trType secured cfg
      ↔ (cfg.registrationEnabled = true ∧ secured = true)) := by
  obtain ⟨ms, reg, comp, ver⟩ := cfg
  cases trType <;> cases secured <;> cases reg <;> cases ms <;>
    simp [unauthenticatedFeatures, mkMechanismEl, tlsNamespace, saslNamespace]

/-- C6: a stream open element received in state connecting that passes the
transport-dependent name and namespace checks but whose (non-empty) `to`
attribute is not a local domain fails validation with the host-unknown stream
error, and `handleConnecting` takes the disconnect path: the stream writes
host-unknown and ends in state disconnected. -/
theorem handleConnecting_hostUnknown (env : StreamEnv) (cfg : FeaturesCfg)
    (rosterInitialized : Bool) (ctx : StreamCtx) (e : Element)
    (hhead : validateStreamHead env.trType e = none)
    (hto : e.to ≠ "")
    (hlocal : env.isLocalDomain e.to = false) :
    validateStreamElement env e = some .hostUnknown ∧
    (handleConnecting env cfg rosterInitialized ctx e).state = .disconnected ∧
    (handleConnecting env cfg rosterInitialized ctx e).streamErr = some .hostUnknown := by
  have hval : validateStreamElement env e = some .hostUnknown := by
    simp [validateStreamElement, hhead, hlocal, hto]
  exact ⟨hval, by simp [handleConnecting, hval], by simp [handleConnecting, hval]⟩

/-- C6 witness: the concrete socket stream open addressed to `evil.org` (not
local) is answered with host-unknown and the stream disconnects. -/
theorem handleConnecting_hostUnknown_witness :
    validateStreamElement c6env c6elem = some .hostUnknown ∧
    (handleConnecting c6env ⟨["PLAIN"], false, false, false⟩ false c6ctx c6elem).state
      = .disconnected ∧
    (handleConnecting c6env ⟨["PLAIN"], false, false, false⟩ false c6ctx c6elem).streamErr
      = some .hostUnknown :=
  handleConnecting_hostUnknown c6env ⟨["PLAIN"], false, false, false⟩ false c6ctx
    c6elem (by decide) (by decide) (by decide)

/-- C7: in state connected, an iq element that builds into a well-formed IQ
stanza, does not match the registration module and carries a child `query` in
the legacy `jabber:iq:auth` namespace is answered with a service-unavailable
stanza error, and the stream stays in state connected with its context
unchanged. -/
theorem handleConnected_legacy_auth (env : ConnectedEnv) (ctx : StreamCtx)
    (e : Element) (iq : IQ) (hname : e.name = "iq")
    (hbuild : buildStanzaIQ env.parseJID ctx.jid e = .ok iq)
    (hreg : ∀ f, env.registerModule = some f → f iq = false)
    (hquery : (iq.childNamespace "query" "jabber:iq:auth").isSome = true) :
    handleConnected env ctx e =
      { outcome := .wroteServiceUnavailable, state := .connected, ctx := ctx } := by
  cases hr : env.registerModule with
  | none => simp [handleConnected, hname, hbuild, hquery, hr]
  | some f =>
    have hf := hreg f hr
    simp [handleConnected, hname, hbuild, hquery, hr, hf]

/-- C7 witness: a concrete `<iq type='get'>` carrying
`<query xmlns='jabber:iq:auth'/>`, with no registration module, is answered
with service-unavailable and the stream stays connected. -/
theorem handleConnected_legacy_auth_witness :
    handleConnected c7env c7ctx c7elem =
      { outcome := .wroteServiceUnavailable, state := .connected, ctx := c7ctx } :=
  handleConnected_legacy_auth c7env c7ctx c7elem c7iq rfl rfl
    (fun _ h => Option.noConfusion h) rfl

/-- Helper: the roster block sets the roster latch exactly when it delivers,
delivers only from an unset latch, and does not touch the offline latch. -/
theorem rosterStage_latch (re : Bool) (c : StreamCtx) :
    ((rosterStage re c).1.rosterOnce = (c.rosterOnce || (rosterStage re c).2.1)) ∧
    ((rosterStage re c).2.1 = true → c.rosterOnce = false) ∧
    ((rosterStage re c).1.offlineOnce = c.offlineOnce) := by
  unfold rosterStage
  split
  · split <;> simp_all
  · simp

/-- Helper: the offline block sets the offline latch exactly when it
delivers, delivers only from an unset latch, and does not touch the roster
latch. -/
theorem offlineStage_latch (oe : Bool) (pr : Int) (c : StreamCtx) :
    ((offlineStage oe pr c).1.offlineOnce = (c.offlineOnce || (offlineStage oe pr c).2)) ∧
    ((offlineStage oe pr c).2 = true → c.offlineOnce = false) ∧
    ((offlineStage oe pr c).1.rosterOnce = c.rosterOnce) := by
  unfold offlineStage
  split
  · split <;> simp_all
  · simp

/-- Helper: latch bookkeeping of the self-presence tail. -/
theorem presenceSelf_latch (env : PresenceEnv) (ctx : StreamCtx) (p : Presence) :
    ((presenceSelf env ctx p).1.rosterOnce
        = (ctx.rosterOnce || (presenceSelf env ctx p).2.rosterDelivery)) ∧
    ((presenceSelf env ctx p).2.rosterDelivery = true → ctx.rosterOnce = false) ∧
    ((presenceSelf env ctx p).1.offlineOnce
        = (ctx.offlineOnce || (presenceSelf env ctx p).2.offlineDelivery)) ∧
    ((presenceSelf env ctx p).2.offlineDelivery = true → ctx.offlineOnce = false) := by
  obtain ⟨r1, r2, r3⟩ := rosterStage_latch env.rosterEnabled { ctx with presence := some p }
  obtain ⟨o1, o2, o3⟩ := offlineStage_latch env.offlineEnabled p.priority
    (rosterStage env.rosterEnabled { ctx with presence := some p }).1
  refine ⟨?_, ?_, ?_, ?_⟩
  · show (offlineStage env.offlineEnabled p.priority
        (rosterStage env.rosterEnabled { ctx with presence := some p }).1).1.rosterOnce
      = (ctx.rosterOnce
          || (rosterStage env.rosterEnabled { ctx with presence := some p }).2.1)
    rw [o3, r1]
  · exact r2
  · show (offlineStage env.offlineEnabled p.priority
        (rosterStage env.rosterEnabled { ctx with presence := some p }).1).1.offlineOnce
      = (ctx.offlineOnce
          || (offlineStage env.offlineEnabled p.priority
              (rosterStage env.rosterEnabled { ctx with presence := some p }).1).2)
    rw [o1, r3]
  · exact fun h => r3.symm.trans (o2 h)

/-- Helper: one `processPresence` call sets a latch exactly when it triggers
the corresponding delivery action, triggers a delivery only from an unset
latch, and never clears a latch. -/
theorem processPresence_latch_step (env : PresenceEnv) (ctx : StreamCtx)
    (p : Presence) :
    ((processPresence env ctx p).1.rosterOnce
        = (ctx.rosterOnce || (processPresence env ctx p).2.rosterDelivery)) ∧
    ((processPresence env ctx p).2.rosterDelivery = true → ctx.rosterOnce = false) ∧
    ((processPresence env ctx p).1.offlineOnce
        = (ctx.offlineOnce || (processPresence env ctx p).2.offlineDelivery)) ∧
    ((processPresence env ctx p).2.offlineDelivery = true → ctx.offlineOnce = false) := by
  unfold processPresence
  split
  · exact ⟨by simp, by simp, by simp, by simp⟩
  split
  · exact ⟨by simp, by simp, by simp, by simp⟩
  split
  · exact ⟨by simp, by simp, by simp, by simp⟩
  · exact presenceSelf_latch env ctx p

/-- Helper: over any presence sequence, the number of roster delivery actions
plus one for an initially set roster latch is at most one, and likewise for
the offline delivery actions and the offline latch. -/
theorem processPresences_count_bound (env : PresenceEnv) :
    ∀ (ps : List Presence) (ctx : StreamCtx),
      (processPresences env ctx ps).2.1 + (if ctx.rosterOnce then 1 else 0) ≤ 1 ∧
      (processPresences env ctx ps).2.2 + (if ctx.offlineOnce then 1 else 0) ≤ 1 := by
  intro ps
  induction ps with
  | nil =>
    intro ctx
    constructor <;> simp [processPresences] <;> split <;> simp
  | cons p ps ih =>
    intro ctx
    obtain ⟨h1, h2, h3, h4⟩ := processPresence_latch_step env ctx p
    obtain ⟨ihr, iho⟩ := ih (processPresence env ctx p).1
    rw [h1] at ihr
    rw [h3] at iho
    constructor
    · simp only [processPresences]
      cases hrd : (processPresence env ctx p).2.rosterDelivery
      · rw [hrd] at ihr
        simpa using ihr
      · have hc := h2 hrd
        rw [hrd, hc] at ihr
        rw [hc]
        simpa using ihr
    · simp only [processPresences]
      cases hod : (processPresence env ctx p).2.offlineDelivery
      · rw [hod] at iho
        simpa using iho
      · have hc := h4 hod
        rw [hod, hc] at iho
        rw [hc]
        simpa using iho

/-- C8: over any sequence of presence stanzas handled in session_started on a
stream whose one-shot latches start unset, the roster pending-approval
delivery plus receive-presences action is triggered at most once, and the
offline message delivery is triggered at most once; the latches are set when
the action fires and are never cleared. -/
theorem processPresences_once_per_stream (env : PresenceEnv) (ctx : StreamCtx)
    (ps : List Presence) (hr : ctx.rosterOnce = false)
    (ho : ctx.offlineOnce = false) :
    (processPresences env ctx ps).2.1 ≤ 1 ∧ (processPresences env ctx ps).2.2 ≤ 1 := by
  have h := processPresences_count_bound env ps ctx
  rw [hr, ho] at h
  simpa using h

/-- C8 witness: two consecutive self-addressed available presences of
priority zero on a fresh stream trigger each delivery at most once. -/
theorem processPresences_once_per_stream_witness :
    (processPresences ⟨fun _ => true, true, true⟩ (newStreamCtx .socket "localhost")
      [⟨⟨"", "localhost", ""⟩, 0⟩, ⟨⟨"", "localhost", ""⟩, 0⟩]).2.1 ≤ 1 ∧
    (processPresences ⟨fun _ => true, true, true⟩ (newStreamCtx .socket "localhost")
      [⟨⟨"", "localhost", ""⟩, 0⟩, ⟨⟨"", "localhost", ""⟩, 0⟩]).2.2 ≤ 1 :=
  processPresences_once_per_stream ⟨fun _ => true, true, true⟩
    (newStreamCtx .socket "localhost")
    [⟨⟨"", "localhost", ""⟩, 0⟩, ⟨⟨"", "localhost", ""⟩, 0⟩] rfl rfl

/-- C9: for every stanza whose destination JID is a server JID (empty node
and empty resource) on a local domain, `isBlockedJID` answers false whatever
the router's blocklist contains, so `processStanza` never produces the
blocked error response (not-acceptable carrying a `<blocked>` child in the
`urn:xmpp:blocking:errors` namespace) for such a destination. -/
theorem processStanza_server_jid_never_blocked (env : BlockEnv)
    (username : String) (st : Stanza) (hnode : st.toJID.node = "")
    (hres : st.toJID.resource = "")
    (hloc : env.isLocalDomain st.toJID.domain = true) :
    isBlockedJID env username st.toJID = false ∧
    processStanza env username st = .dispatched := by
  have hs : st.toJID.isServer = true := by simp [JID.isServer, hnode, hres]
  have hb : isBlockedJID env username st.toJID = false := by
    simp [isBlockedJID, hs, hloc]
  exact ⟨hb, by simp [processStanza, hb]⟩

/-- C9 witness: an iq addressed to the bare local server JID is dispatched,
not answered with the blocked error, even under a blocklist that blocks
everything. -/
theorem processStanza_server_jid_never_blocked_witness :
    isBlockedJID c9env "alice" c9stanza.toJID = false ∧
    processStanza c9env "alice" c9stanza = .dispatched :=
  processStanza_server_jid_never_blocked c9env "alice" c9stanza rfl rfl rfl

/-- C10: a stream created over a websocket transport has its secured flag set
to true from creation; consequently the features advertised on its first open
contain no starttls element, the SASL mechanisms list is offered as soon as at
least one mechanism is configured, and a starttls element received in state
connected (with an empty or TLS namespace) is rejected with the
not-authorized stream error and the stream disconnects. -/
theorem websocket_stream_secured (d : String) (cfg : FeaturesCfg)
    (env : ConnectedEnv) (e : Element) (hname : e.name = "starttls")
    (hns : e.ns = "" ∨ e.ns = tlsNamespace) :
    (newStreamCtx .websocket d).secured = true ∧
    ((unauthenticatedFeatures .websocket (newStreamCtx .websocket d).secured cfg).any
        (fun f => f.name == "starttls") = false) ∧
    (cfg.mechanisms ≠ [] →
      (Element.mk "mechanisms" saslNamespace "" [] (cfg.mechanisms.map mkMechanismEl))
        ∈ unauthenticatedFeatures .websocket (newStreamCtx .websocket d).secured cfg) ∧
    handleConnected env (newStreamCtx .websocket d) e =
      { outcome := .streamErrClosed .notAuthorized, state := .disconnected,
        ctx := newStreamCtx .websocket d } := by
  refine ⟨rfl, ?_, ?_, ?_⟩
  · obtain ⟨ms, reg, comp, ver⟩ := cfg
    cases reg <;> cases ms <;>
      simp [unauthenticatedFeatures, newStreamCtx, mkMechanismEl, Element.name]
  · intro hms
    obtain ⟨ms, reg, comp, ver⟩ := cfg
    cases ms with
    | nil => exact absurd rfl hms
    | cons m tail =>
      cases reg <;> simp [unauthenticatedFeatures, newStreamCtx, mkMechanismEl]
  · have hcond : (e.ns != "" && e.ns != tlsNamespace) = false := by
      rcases hns with h | h <;> simp [h, tlsNamespace]
    simp [handleConnected, hname, hcond, proceedStartTLS,
      show (newStreamCtx TransportType.websocket d).secured = true from rfl]

/-- C10 witness: a concrete websocket stream with one configured mechanism:
secured from creation, no starttls advertised, mechanisms offered, and a
starttls element answered with not-authorized. -/
theorem websocket_stream_secured_witness :
    (newStreamCtx .websocket "localhost").secured = true ∧
    ((unauthenticatedFeatures .websocket (newStreamCtx .websocket "localhost").secured
        ⟨["PLAIN"], false, false, false⟩).any (fun f => f.name == "starttls") = false) ∧
    ((["PLAIN"] : List String) ≠ [] →
      (Element.mk "mechanisms" saslNamespace "" [] (["PLAIN"].map mkMechanismEl))
        ∈ unauthenticatedFeatures .websocket (newStreamCtx .websocket "localhost").secured
            ⟨["PLAIN"], false, false, false⟩) ∧
    handleConnected c10env (newStreamCtx .websocket "localhost") c10elem =
      { outcome := .streamErrClosed .notAuthorized, state := .disconnected,
        ctx := newStreamCtx .websocket "localhost" } :=
  websocket_stream_secured "localhost" ⟨["PLAIN"], false, false, false⟩ c10env
    c10elem rfl (Or.inr rfl)

end Jackal
